import Mathlib

/-!
Verification of the Pebble Snowy display controller emulation
(`hw/display/pebble_snowy_display.c`).

The C file implements an SPI-attached display controller: a byte-oriented
protocol state machine with firmware-dialect detection, a 172x148 packed-color
framebuffer, and a clock/chip-select monitor that detects the end of the FPGA
programming phase.  The definitions below are a shallow embedding of that
code: every function is translated directly from the corresponding C function
and keeps its name.  Machine integers are modeled as `Nat` (with explicit
`% 2 ^ w` where C overflow or truncation matters) and C `int` values that can
go negative (the row cursor) as `Int`.  The framebuffer is modeled as a total
function `Int → Nat` so that an out-of-bounds array write would be visible as
a write at an index outside `[0, 172 * 148)`.

The `qemu_irq` output lines (`done_output`, `intn_output`) are modeled by
their boolean levels stored in the state.  Three observation counters are
added to the state (they influence nothing): `done_rise_count` counts
low-to-high transitions of `done_output`, `detect_count` counts calls of
`ps_display_determine_command_set`, and `wrong_scene_count` counts executions
of the "draw scene in wrong state" recovery branch.
-/

/-! ### Display geometry and color constants (C macros) -/

abbrev SNOWY_NUM_ROWS : Nat := 172
abbrev SNOWY_NUM_COLS : Nat := 148
abbrev SNOWY_BYTES_PER_ROW : Nat := SNOWY_NUM_COLS
abbrev SNOWY_ROWS_SKIPPED_AT_TOP : Nat := 17
abbrev SNOWY_ROWS_SKIPPED_AT_BOTTOM : Nat := 16
abbrev SNOWY_LINE_DATA_LEN : Nat :=
  SNOWY_ROWS_SKIPPED_AT_TOP + SNOWY_NUM_ROWS + SNOWY_ROWS_SKIPPED_AT_BOTTOM
abbrev SNOWY_FB_SIZE : Nat := SNOWY_NUM_ROWS * SNOWY_BYTES_PER_ROW

abbrev SNOWY_COLOR_BLACK : Nat := 0
abbrev SNOWY_COLOR_WHITE : Nat := 0xFC
abbrev SNOWY_COLOR_RED : Nat := 0xC0
abbrev SNOWY_COLOR_GREEN : Nat := 0x30
abbrev SNOWY_COLOR_BLUE : Nat := 0x0C

/-! ### Enumerations -/

/-- Decode states of the display (C enum `PSDisplayState`). -/
inductive PSDisplayState where
  | PSDISPLAYSTATE_PROGRAMMING
  | PSDISPLAYSTATE_ACCEPTING_CMD
  | PSDISPLAYSTATE_ACCEPTING_PARAM
  | PSDISPLAYSTATE_ACCEPTING_SCENE_BYTE
  | PSDISPLAYSTATE_ACCEPTING_LINENO
  | PSDISPLAYSTATE_ACCEPTING_DATA
  deriving DecidableEq, Repr

open PSDisplayState

/-- Which command set the FPGA is implementing (C enum `PDisplayCmdSet`). -/
inductive PDisplayCmdSet where
  | PSDISPLAY_CMD_SET_UNKNOWN
  | PSDISPLAY_CMD_SET_0
  | PSDISPLAY_CMD_SET_1
  deriving DecidableEq, Repr

open PDisplayCmdSet

/-- Command opcodes for command set 0 (C enum `PDisplayCmd0`). -/
abbrev PSDISPLAYCMD0_NULL : Nat := 0
abbrev PSDISPLAYCMD0_SET_PARAMETER : Nat := 1
abbrev PSDISPLAYCMD0_DISPLAY_OFF : Nat := 2
abbrev PSDISPLAYCMD0_DISPLAY_ON : Nat := 3
abbrev PSDISPLAYCMD0_DRAW_SCENE : Nat := 4

/-- Command opcodes for command set 1 (C enum `PDisplayCmd1`). -/
abbrev PSDISPLAYCMD1_FRAME_BEGIN : Nat := 0
abbrev PSDISPLAYCMD1_FRAME_DATA : Nat := 1
abbrev PSDISPLAYCMD1_FRAME_END : Nat := 2

/-- Scene ids used by the `DRAW_SCENE` command (C enum `PDisplayScene`). -/
abbrev PSDISPLAYSCENE_BLACK : Nat := 0
abbrev PSDISPLAYSCENE_SPLASH : Nat := 1
abbrev PSDISPLAYSCENE_UPDATE : Nat := 2
abbrev PSDISPLAYSCENE_ERROR : Nat := 3

/-! ### Device state (C struct `PSDisplayGlobals`) -/

/-- The mutable state of the display controller, translated field by field
from the C struct `PSDisplayGlobals`.  The two `qemu_irq` outputs are
represented by their levels (`done_level`, `intn_level`).  The final three
fields are pure observation counters that no definition reads. -/
structure PSDisplay where
  redraw : Bool
  framebuffer : Int → Nat
  col_index : Int
  row_index : Int
  state : PSDisplayState
  cmd : Nat
  parameter : Nat
  parameter_byte_offset : Nat
  scene : Nat
  sclk_value : Bool
  cs_value : Bool
  sclk_count_with_cs_high : Nat
  prog_header : Nat → Nat
  prog_byte_offset : Nat
  cmd_set : PDisplayCmdSet
  intn_level : Bool
  done_level : Bool
  done_rise_count : Nat
  detect_count : Nat
  wrong_scene_count : Nat

/-- Model of `qemu_set_irq(s->intn_output, level)`: record the new level of
the done/busy line (asserted = electrically low = `false`). -/
def qemu_set_intn (s : PSDisplay) (level : Bool) : PSDisplay :=
  { s with intn_level := level }

/-- Model of `qemu_set_irq(s->done_output, level)`: record the new level of
the programming-complete line, counting low-to-high transitions. -/
def qemu_set_done (s : PSDisplay) (level : Bool) : PSDisplay :=
  { s with
    done_level := level
    done_rise_count :=
      s.done_rise_count + (if level && !s.done_level then 1 else 0) }

/-! ### Framebuffer operations -/

/-- C function `ps_display_set_pixel`:
`s->framebuffer[y * SNOWY_BYTES_PER_ROW + x] = pixel_byte`. -/
def ps_display_set_pixel (s : PSDisplay) (x y : Nat) (pixel_byte : Nat) :
    PSDisplay :=
  { s with
    framebuffer := fun idx =>
      if idx = (y * SNOWY_BYTES_PER_ROW + x : Nat) then pixel_byte
      else s.framebuffer idx }

/-- C `memset(s->framebuffer, v, sizeof(s->framebuffer))`: overwrite every
byte of the framebuffer array with `v`. -/
def ps_display_fill_framebuffer (s : PSDisplay) (v : Nat) : PSDisplay :=
  { s with
    framebuffer := fun idx =>
      if 0 ≤ idx ∧ idx < (SNOWY_FB_SIZE : Nat) then v else s.framebuffer idx }

/-- The framebuffer cell written for pixel index `i` of a blit: the C code
computes `uint8_t x = x_offset + (i % width)` and
`uint8_t y = y_offset + (i / width)` (the `uint8_t` truncation is the
`% 256`) and writes `framebuffer[y * SNOWY_BYTES_PER_ROW + x]`. -/
def drawBitmapTarget (x_offset y_offset width : Nat) (i : Nat) : Int :=
  (((y_offset + i / width) % 256) * SNOWY_BYTES_PER_ROW
    + ((x_offset + i % width) % 256) : Nat)

/-- One iteration of the `ps_display_draw_bitmap` loop: test
`bits[i / 8] & (1 << (i % 8))` and write red (`0xC0`) for a set bit, black
(`0x00`) for a clear bit, at the pixel cell of index `i`. -/
def drawBitmapStep (bits : Nat → Nat) (x_offset y_offset width : Nat)
    (t : PSDisplay) (i : Nat) : PSDisplay :=
  let x := (x_offset + i % width) % 256
  let y := (y_offset + i / width) % 256
  if bits (i / 8) &&& (1 <<< (i % 8)) ≠ 0 then
    ps_display_set_pixel t x y 0xC0
  else
    ps_display_set_pixel t x y 0x00

/-- C function `ps_display_draw_bitmap`: the loop
`for (i = 0; i < width * height; ++i)` over `drawBitmapStep`. -/
def ps_display_draw_bitmap (s : PSDisplay) (bits : Nat → Nat)
    (x_offset y_offset width height : Nat) : PSDisplay :=
  (List.range (width * height)).foldl
    (drawBitmapStep bits x_offset y_offset width) s

/-! ### Command-set detection (C function `ps_display_determine_command_set`) -/

/-- Byte values of the characters of an ASCII string literal. -/
def bytesOfStr (str : String) : List Nat :=
  str.toList.map Char.toNat

/-- The `"Date:"` marker searched for in the programming header. -/
def dateMarker : List Nat := bytesOfStr "Date:"

/-- Signature date string for command set 0 (boot ROM, Dec 2014). -/
def dateCmdSet0 : List Nat := bytesOfStr "Date: Dec 10 2014 08:30"

/-- Signature date string for command set 1 (FW ROM, Sep 2014). -/
def dateCmdSet1 : List Nat := bytesOfStr "Date: Sep 12 2014 16:56:21"

/-- `strncmp(h + i, cs, cs.length) == 0`: the bytes of `h` starting at `i`
equal the byte list `cs`.  (For the NUL-free literals used here, C `strncmp`
returns 0 exactly when all compared bytes are equal.) -/
def matchesAt (h : Nat → Nat) (i : Nat) : List Nat → Bool
  | [] => true
  | c :: cs => (h i == c) && matchesAt h (i + 1) cs

/-- C `strlen` of the NUL-terminated string stored in `h` starting at
position `i`, computed with explicit fuel.  The caller passes fuel `256`:
the scan below only calls this at positions `i` with a NUL byte stored at
some position `< i + 256`, so the fuel is never exhausted there. -/
def strlenFrom (h : Nat → Nat) (i fuel : Nat) : Nat :=
  match fuel with
  | 0 => 0
  | fuel + 1 => if h i = 0 then 0 else strlenFrom h (i + 1) fuel + 1

/-- The scanning loop of `ps_display_determine_command_set`: starting at
position `i` (initially 2, skipping the `0xFF 0x00` sentinel), look for a
string that starts with `"Date:"`; on a match compare against the two known
signature dates in order, falling back to the default `PSDISPLAY_CMD_SET_1`;
otherwise skip past the current NUL-terminated string (the loop `i++` plus
`i += strlen(str_p)`).  The position strictly increases every iteration, so
with fuel `256 > 255 ≥ off` the fuel is never exhausted while `i < off`;
the fuel-exhausted value equals the loop-exit default. -/
def detLoop (h : Nat → Nat) (off : Nat) : Nat → Nat → PDisplayCmdSet
  | _, 0 => PSDISPLAY_CMD_SET_1
  | i, fuel + 1 =>
    if i < off then
      if matchesAt h i dateMarker then
        if matchesAt h i dateCmdSet0 then PSDISPLAY_CMD_SET_0
        else if matchesAt h i dateCmdSet1 then PSDISPLAY_CMD_SET_1
        else PSDISPLAY_CMD_SET_1
      else detLoop h off (i + strlenFrom h i 256 + 1) fuel
    else PSDISPLAY_CMD_SET_1

/-- C function `ps_display_determine_command_set`: clamp the captured byte
count to the buffer size, NUL-terminate the header, set the default command
set (`PSDISPLAY_CMD_SET_1`), and scan for a recognized `"Date:"` signature
starting two bytes in. -/
def ps_display_determine_command_set (s : PSDisplay) : PSDisplay :=
  let off := if s.prog_byte_offset ≥ 256 then 255 else s.prog_byte_offset
  let h : Nat → Nat := fun i => if i = off then 0 else s.prog_header i
  { s with
    prog_byte_offset := off
    prog_header := h
    cmd_set := detLoop h off 2 256
    detect_count := s.detect_count + 1 }

/-! ### Command execution -/

/-- C function `ps_display_reset_state`: optionally assert the done line
(electrically low), then return to `ACCEPTING_CMD` and clear the parameter
byte offset. -/
def ps_display_reset_state (s : PSDisplay) (assert_done : Bool) : PSDisplay :=
  let s := if assert_done then qemu_set_intn s false else s
  { s with
    state := PSDISPLAYSTATE_ACCEPTING_CMD
    parameter_byte_offset := 0 }

/-- The fixed 512-byte splash-screen bitmap (C `ps_display_get_pebble_logo`). -/
def pebble_logo : List Nat := [
  0x00, 0x00, 0x00, 0x00, 0x00, 0x00, 0x38, 0x00, 0x00, 0x1C, 0x00, 0x00, 0x0E, 0x00, 0x00, 0x00,
  0x00, 0x00, 0x00, 0x00, 0x00, 0x00, 0x38, 0x00, 0x00, 0x1C, 0x00, 0x00, 0x0E, 0x00, 0x00, 0x00,
  0x00, 0x00, 0x00, 0x00, 0x00, 0x00, 0x38, 0x00, 0x00, 0x1C, 0x00, 0x00, 0x0E, 0x00, 0x00, 0x00,
  0x00, 0x00, 0x00, 0x00, 0x00, 0x00, 0x38, 0x00, 0x00, 0x1C, 0x00, 0x00, 0x0E, 0x00, 0x00, 0x00,
  0x00, 0x00, 0x00, 0x00, 0x00, 0x00, 0x38, 0x00, 0x00, 0x1C, 0x00, 0x00, 0x0E, 0x00, 0x00, 0x00,
  0x00, 0x00, 0x00, 0x00, 0x00, 0x00, 0x38, 0x00, 0x00, 0x1C, 0x00, 0x00, 0x0E, 0x00, 0x00, 0x00,
  0x00, 0x00, 0x00, 0x00, 0x00, 0x00, 0x38, 0x00, 0x00, 0x1C, 0x00, 0x00, 0x0E, 0x00, 0x00, 0x00,
  0x00, 0x00, 0x07, 0x00, 0xE0, 0x01, 0x38, 0x70, 0x00, 0x1C, 0x38, 0x00, 0x0E, 0xC0, 0x03, 0x00,
  0x80, 0xE3, 0x3F, 0x00, 0xFC, 0x0F, 0x38, 0xFE, 0x03, 0x1C, 0xFF, 0x01, 0x0E, 0xF8, 0x1F, 0x00,
  0x80, 0xF3, 0x7F, 0x00, 0xFE, 0x1F, 0x38, 0xFF, 0x0F, 0x9C, 0xFF, 0x07, 0x0E, 0xFC, 0x3F, 0x00,
  0x80, 0x3B, 0xF0, 0x00, 0x0F, 0x3C, 0xB8, 0x03, 0x1F, 0xDC, 0x81, 0x0F, 0x0E, 0x1E, 0x78, 0x00,
  0x80, 0x0F, 0xE0, 0x81, 0x03, 0x78, 0xF8, 0x01, 0x1C, 0xFC, 0x00, 0x0E, 0x0E, 0x07, 0xF0, 0x00,
  0x80, 0x0F, 0xC0, 0x83, 0x03, 0x70, 0xF8, 0x00, 0x3C, 0x7C, 0x00, 0x1E, 0x0E, 0x07, 0xE0, 0x00,
  0x80, 0x07, 0x80, 0xC3, 0x01, 0x70, 0x78, 0x00, 0x38, 0x3C, 0x00, 0x1C, 0x8E, 0x03, 0xE0, 0x00,
  0x80, 0x03, 0x80, 0xC3, 0x01, 0x7E, 0x38, 0x00, 0x30, 0x1C, 0x00, 0x18, 0x8E, 0x03, 0xFC, 0x00,
  0x80, 0x03, 0x00, 0xC7, 0xC1, 0x1F, 0x38, 0x00, 0x70, 0x1C, 0x00, 0x38, 0x8E, 0x83, 0x3F, 0x00,
  0x80, 0x03, 0x00, 0xC7, 0xF9, 0x03, 0x38, 0x00, 0x70, 0x1C, 0x00, 0x38, 0x8E, 0xF3, 0x07, 0x00,
  0x80, 0x03, 0x00, 0xC7, 0x7F, 0x00, 0x38, 0x00, 0x70, 0x1C, 0x00, 0x38, 0x8E, 0xFF, 0x00, 0x00,
  0x80, 0x03, 0x00, 0xC7, 0x0F, 0x00, 0x38, 0x00, 0x70, 0x1C, 0x00, 0x38, 0x8E, 0x1F, 0x00, 0x00,
  0x80, 0x03, 0x80, 0xC3, 0x01, 0x00, 0x38, 0x00, 0x30, 0x1C, 0x00, 0x18, 0x8E, 0x03, 0x00, 0x00,
  0x80, 0x07, 0x80, 0xC3, 0x01, 0x00, 0x78, 0x00, 0x38, 0x3C, 0x00, 0x1C, 0x8E, 0x03, 0x00, 0x00,
  0x80, 0x0F, 0xC0, 0x83, 0x03, 0x00, 0xF8, 0x00, 0x38, 0x7C, 0x00, 0x1C, 0x0E, 0x07, 0x00, 0x00,
  0x80, 0x0F, 0xC0, 0x81, 0x07, 0x70, 0xF8, 0x01, 0x1C, 0xFC, 0x00, 0x0E, 0x0E, 0x0F, 0xE0, 0x00,
  0x80, 0x3F, 0xF0, 0x00, 0x0F, 0x78, 0xB8, 0x03, 0x1F, 0xDC, 0x81, 0x0F, 0x0E, 0x1E, 0xF0, 0x00,
  0x80, 0xF3, 0x7F, 0x00, 0xFE, 0x3F, 0x38, 0xFF, 0x07, 0x9C, 0xFF, 0x03, 0x0E, 0xFC, 0x7F, 0x00,
  0x80, 0xE3, 0x3F, 0x00, 0xF8, 0x0F, 0x38, 0xFE, 0x03, 0x1C, 0xFF, 0x01, 0x0E, 0xF0, 0x1F, 0x00,
  0x80, 0x03, 0x07, 0x00, 0xC0, 0x01, 0x00, 0x70, 0x00, 0x00, 0x38, 0x00, 0x00, 0x80, 0x03, 0x00,
  0x80, 0x03, 0x00, 0x00, 0x00, 0x00, 0x00, 0x00, 0x00, 0x00, 0x00, 0x00, 0x00, 0x00, 0x00, 0x00,
  0x80, 0x03, 0x00, 0x00, 0x00, 0x00, 0x00, 0x00, 0x00, 0x00, 0x00, 0x00, 0x00, 0x00, 0x00, 0x00,
  0x80, 0x03, 0x00, 0x00, 0x00, 0x00, 0x00, 0x00, 0x00, 0x00, 0x00, 0x00, 0x00, 0x00, 0x00, 0x00,
  0x80, 0x03, 0x00, 0x00, 0x00, 0x00, 0x00, 0x00, 0x00, 0x00, 0x00, 0x00, 0x00, 0x00, 0x00, 0x00,
  0x80, 0x03, 0x00, 0x00, 0x00, 0x00, 0x00, 0x00, 0x00, 0x00, 0x00, 0x00, 0x00, 0x00, 0x00, 0x00]

/-- Byte accessor for the splash logo bitmap. -/
def ps_display_get_pebble_logo : Nat → Nat :=
  fun i => pebble_logo.getD i 0

/-- C function `ps_display_execute_current_cmd_set0` (boot ROM command set). -/
def ps_display_execute_current_cmd_set0 (s : PSDisplay) : PSDisplay :=
  if s.cmd = PSDISPLAYCMD0_NULL then
    ps_display_reset_state s true
  else if s.cmd = PSDISPLAYCMD0_SET_PARAMETER then
    { s with
      state := PSDISPLAYSTATE_ACCEPTING_PARAM
      parameter_byte_offset := 0 }
  else if s.cmd = PSDISPLAYCMD0_DISPLAY_OFF then
    ps_display_reset_state s true
  else if s.cmd = PSDISPLAYCMD0_DISPLAY_ON then
    ps_display_reset_state s true
  else if s.cmd = PSDISPLAYCMD0_DRAW_SCENE then
    if s.state = PSDISPLAYSTATE_ACCEPTING_CMD then
      { s with state := PSDISPLAYSTATE_ACCEPTING_SCENE_BYTE }
    else if s.state = PSDISPLAYSTATE_ACCEPTING_SCENE_BYTE then
      let s :=
        if s.scene = PSDISPLAYSCENE_BLACK then
          ps_display_fill_framebuffer s SNOWY_COLOR_BLACK
        else if s.scene = PSDISPLAYSCENE_SPLASH then
          ps_display_draw_bitmap s ps_display_get_pebble_logo 8 68 128 32
        else if s.scene = PSDISPLAYSCENE_UPDATE then
          ps_display_fill_framebuffer s SNOWY_COLOR_GREEN
        else if s.scene = PSDISPLAYSCENE_ERROR then
          ps_display_fill_framebuffer s SNOWY_COLOR_BLUE
        else
          s
      { ps_display_reset_state s true with redraw := true }
    else
      ps_display_reset_state
        { s with wrong_scene_count := s.wrong_scene_count + 1 } true
  else
    ps_display_reset_state s true

/-- C function `ps_display_execute_current_cmd_set1` (development firmware
command set). -/
def ps_display_execute_current_cmd_set1 (s : PSDisplay) : PSDisplay :=
  if s.cmd = PSDISPLAYCMD1_FRAME_BEGIN then
    s
  else if s.cmd = PSDISPLAYCMD1_FRAME_DATA then
    { s with state := PSDISPLAYSTATE_ACCEPTING_LINENO }
  else if s.cmd = PSDISPLAYCMD1_FRAME_END then
    ps_display_reset_state { s with redraw := true } true
  else
    ps_display_reset_state s true

/-! ### Byte transfer (C function `ps_display_transfer`) -/

/-- C function `ps_display_transfer`, one SPI byte transfer.  `data` is the
`uint32_t` bus word; `data_byte = data & 0x00FF`.  Returns `none` exactly
when the C code calls `abort()` (command dispatch with an unknown command
set); otherwise `some` of the updated state. -/
def ps_display_transfer (s : PSDisplay) (data : Nat) : Option PSDisplay :=
  let data_byte := data % 256
  if s.cs_value then
    -- Chip select not asserted: incoming data is ignored (a diagnostic is
    -- printed when not programming).
    some s
  else
    match s.state with
    | PSDISPLAYSTATE_PROGRAMMING =>
      if s.prog_byte_offset < 256 then
        some { s with
          prog_header := fun i =>
            if i = s.prog_byte_offset then data_byte else s.prog_header i
          prog_byte_offset := s.prog_byte_offset + 1 }
      else
        some s
    | PSDISPLAYSTATE_ACCEPTING_CMD =>
      let s := qemu_set_intn { s with cmd := data_byte } true
      if s.cmd_set = PSDISPLAY_CMD_SET_0 then
        some (ps_display_execute_current_cmd_set0 s)
      else if s.cmd_set = PSDISPLAY_CMD_SET_1 then
        some (ps_display_execute_current_cmd_set1 s)
      else
        none  -- abort()
    | PSDISPLAYSTATE_ACCEPTING_PARAM =>
      let s :=
        if s.parameter_byte_offset = 0 then
          { s with parameter := (s.parameter &&& 0xFFFFFF00) ||| data_byte }
        else if s.parameter_byte_offset = 1 then
          { s with parameter := (s.parameter &&& 0xFFFF00FF) ||| (data_byte <<< 8) }
        else if s.parameter_byte_offset = 2 then
          { s with parameter := (s.parameter &&& 0xFF00FFFF) ||| (data_byte <<< 16) }
        else if s.parameter_byte_offset = 3 then
          { s with parameter := (s.parameter &&& 0x00FFFFFF) ||| (data_byte <<< 24) }
        else
          s  -- more than 4 bytes of parameter: logged only
      let s := { s with
        parameter_byte_offset := (s.parameter_byte_offset + 1) % 2 ^ 32 }
      if s.parameter_byte_offset ≥ 4 then
        some (ps_display_reset_state s true)
      else
        some s
    | PSDISPLAYSTATE_ACCEPTING_SCENE_BYTE =>
      some (ps_display_execute_current_cmd_set0 { s with scene := data_byte })
    | PSDISPLAYSTATE_ACCEPTING_LINENO =>
      -- NOTE: the C code compares and stores the full `data` word here,
      -- not `data_byte`.
      let data := if data ≥ SNOWY_NUM_COLS then 0 else data
      some (qemu_set_intn
        { s with
          col_index := (data : Int)
          row_index := (SNOWY_NUM_ROWS + SNOWY_ROWS_SKIPPED_AT_BOTTOM - 1 : Nat)
          state := PSDISPLAYSTATE_ACCEPTING_DATA } true)
    | PSDISPLAYSTATE_ACCEPTING_DATA =>
      if s.row_index ≥ (SNOWY_NUM_ROWS : Nat) then
        some { s with row_index := s.row_index - 1 }
      else if s.row_index ≥ 0 then
        some { s with
          framebuffer := fun idx =>
            if idx = s.row_index * (SNOWY_BYTES_PER_ROW : Nat) + s.col_index
            then data % 256 else s.framebuffer idx
          row_index := s.row_index - 1 }
      else if s.row_index > -(SNOWY_ROWS_SKIPPED_AT_TOP : Int) then
        some { s with row_index := s.row_index - 1 }
      else
        some (qemu_set_intn
          { s with state := PSDISPLAYSTATE_ACCEPTING_LINENO } false)

/-! ### Pin callbacks -/

/-- C function `ps_display_set_cs`: store the new chip-select level; when CS
goes high (unasserted) outside of programming, reset the decode state. -/
def ps_display_set_cs (s : PSDisplay) (value : Bool) : PSDisplay :=
  let s := { s with cs_value := value }
  if value ∧ s.state ≠ PSDISPLAYSTATE_PROGRAMMING then
    ps_display_reset_state s true
  else
    s

/-- C function `ps_display_set_reset_pin_cb`.  On every call the
programming-complete line is driven low; when the (active-low) reset pin is
asserted (`level = 0`) the controller re-enters programming capture. -/
def ps_display_set_reset_pin_cb (s : PSDisplay) (level : Nat) : PSDisplay :=
  let value : Bool := level != 0
  let s := qemu_set_done s false
  if value then
    s
  else
    { qemu_set_intn s true with
      sclk_count_with_cs_high := 0
      state := PSDISPLAYSTATE_PROGRAMMING
      prog_byte_offset := 0 }

/-- C function `ps_display_set_sclk_pin_cb`.  While chip select is held high,
rising clock edges increment `sclk_count_with_cs_high` (a `uint32_t`); once
the count exceeds 50 the programming-complete line is driven high, and if
still programming the controller leaves programming mode and determines the
command set. -/
def ps_display_set_sclk_pin_cb (s : PSDisplay) (level : Nat) : PSDisplay :=
  let new_value : Bool := level != 0
  let s1 :=
    if s.cs_value then
      let s2 :=
        if new_value = true ∧ new_value ≠ s.sclk_value then
          { s with
            sclk_count_with_cs_high :=
              (s.sclk_count_with_cs_high + 1) % 2 ^ 32 }
        else
          s
      if s2.sclk_count_with_cs_high > 50 then
        let s3 := qemu_set_done s2 true
        if s3.state = PSDISPLAYSTATE_PROGRAMMING then
          ps_display_determine_command_set (ps_display_reset_state s3 true)
        else
          s3
      else
        s2
    else
      s
  { s1 with sclk_value := new_value }

/-! ### Whole-device events, runs, and reachability -/

/-- The zero-initialized device state (QEMU object instances start with all
fields cleared, so the decode state is `PSDISPLAYSTATE_PROGRAMMING` and the
command set is `PSDISPLAY_CMD_SET_UNKNOWN`, both enum value 0). -/
def ps_display_init_state : PSDisplay :=
  { redraw := false
    framebuffer := fun _ => 0
    col_index := 0
    row_index := 0
    state := PSDISPLAYSTATE_PROGRAMMING
    cmd := 0
    parameter := 0
    parameter_byte_offset := 0
    scene := 0
    sclk_value := false
    cs_value := false
    sclk_count_with_cs_high := 0
    prog_header := fun _ => 0
    prog_byte_offset := 0
    cmd_set := PSDISPLAY_CMD_SET_UNKNOWN
    intn_level := false
    done_level := false
    done_rise_count := 0
    detect_count := 0
    wrong_scene_count := 0 }

/-- External events the bus simulation can deliver to the controller. -/
inductive PSEvent where
  | transfer (data : Nat)
  | setCs (value : Bool)
  | setResetPin (level : Nat)
  | setSclkPin (level : Nat)

/-- One external event applied to the device state (`none` = `abort()`). -/
def psStep (s : PSDisplay) : PSEvent → Option PSDisplay
  | .transfer data => ps_display_transfer s data
  | .setCs value => some (ps_display_set_cs s value)
  | .setResetPin level => some (ps_display_set_reset_pin_cb s level)
  | .setSclkPin level => some (ps_display_set_sclk_pin_cb s level)

/-- States reachable from the zero-initialized state by any event sequence. -/
inductive PSReachable : PSDisplay → Prop
  | init : PSReachable ps_display_init_state
  | step {s : PSDisplay} {e : PSEvent} {s' : PSDisplay} :
      PSReachable s → psStep s e = some s' → PSReachable s'

/-- Run a list of byte transfers; `none` as soon as one aborts. -/
def runTransfers (s : PSDisplay) : List Nat → Option PSDisplay
  | [] => some s
  | d :: ds =>
    match ps_display_transfer s d with
    | none => none
    | some s' => runTransfers s' ds

/-- Apply a list of clock-pin levels in order. -/
def runSclk (s : PSDisplay) : List Nat → PSDisplay
  | [] => s
  | l :: ls => runSclk (ps_display_set_sclk_pin_cb s l) ls

/-- Clock-pin level sequence producing `n` rising edges: `n` repetitions of
drive-high then drive-low. -/
def sclkPulses (n : Nat) : List Nat :=
  (List.replicate n [1, 0]).flatten

/-! ## General-purpose lemmas -/

/-- Bitwise `and` distributes over `or` on `Nat` (used to collapse the
parameter accumulator mask chain). -/
theorem nat_or_and_right (a b m : Nat) : (a ||| b) &&& m = (a &&& m) ||| (b &&& m) := by
  apply Nat.eq_of_testBit_eq
  intro i
  simp [Nat.testBit_lor, Nat.testBit_land, Bool.and_or_distrib_right]

/-! ## Shared concrete states for witnesses -/

/-- A device state ready to accept a command under the given command set
(chip select asserted), with a nonzero stale parameter accumulator. -/
def mkCmdState (cs : PDisplayCmdSet) : PSDisplay :=
  { ps_display_init_state with
      state := PSDISPLAYSTATE_ACCEPTING_CMD
      cs_value := false
      cmd_set := cs
      parameter := 0xDEADBEEF }

/-! ## C3: Legacy SetParameter assembles the parameter little-endian -/

/-- C3: Under the Legacy dialect (command set 0), in `ACCEPTING_CMD`,
transferring the `SET_PARAMETER` opcode and then the four bytes
`0x01 0x02 0x03 0x04` assembles the 32-bit parameter little-endian to
`0x04030201` (whatever the accumulator held before), signals done after the
fourth byte (`intn` asserted low), and returns to `ACCEPTING_CMD`. -/
theorem legacy_set_parameter_little_endian (s : PSDisplay)
    (hcs : s.cs_value = false) (hst : s.state = PSDISPLAYSTATE_ACCEPTING_CMD)
    (hset : s.cmd_set = PSDISPLAY_CMD_SET_0) :
    ∃ s', runTransfers s [PSDISPLAYCMD0_SET_PARAMETER, 0x01, 0x02, 0x03, 0x04] = some s' ∧
      s'.parameter = 0x04030201 ∧ s'.state = PSDISPLAYSTATE_ACCEPTING_CMD ∧
      s'.intn_level = false := by
  simp [runTransfers, ps_display_transfer, qemu_set_intn, hcs, hst, hset,
    ps_display_execute_current_cmd_set0, ps_display_reset_state]
  simp only [nat_or_and_right, Nat.land_assoc]
  have hm : ((4294967040 : Nat) &&& (4294902015 &&& (4278255615 &&& 16777215))) = 0 := by decide
  have h2 : ((1 : Nat) &&& (4294902015 &&& (4278255615 &&& 16777215))) = 1 := by decide
  have h3 : ((512 : Nat) &&& (4278255615 &&& 16777215)) = 512 := by decide
  have h4 : ((196608 : Nat) &&& 16777215) = 196608 := by decide
  rw [hm, h2, h3, h4]
  simp

/-- Witness for C3 at a concrete state whose stale parameter is
`0xDEADBEEF`. -/
theorem legacy_set_parameter_little_endian_witness :
    (mkCmdState PSDISPLAY_CMD_SET_0).cs_value = false ∧
    ∃ s', runTransfers (mkCmdState PSDISPLAY_CMD_SET_0)
        [PSDISPLAYCMD0_SET_PARAMETER, 0x01, 0x02, 0x03, 0x04] = some s' ∧
      s'.parameter = 0x04030201 ∧ s'.state = PSDISPLAYSTATE_ACCEPTING_CMD ∧
      s'.intn_level = false :=
  ⟨rfl, legacy_set_parameter_little_endian (mkCmdState PSDISPLAY_CMD_SET_0) rfl rfl rfl⟩

/-! ## C4: Legacy DrawScene Black fills the framebuffer -/

/-- C4: Under the Legacy dialect, in `ACCEPTING_CMD`, transferring the
`DRAW_SCENE` opcode and then the `BLACK` scene byte overwrites every
framebuffer byte with the black encoding (`0x00`), sets the dirty flag,
signals done, and returns to `ACCEPTING_CMD`. -/
theorem legacy_draw_scene_black_fills_framebuffer (s : PSDisplay)
    (hcs : s.cs_value = false) (hst : s.state = PSDISPLAYSTATE_ACCEPTING_CMD)
    (hset : s.cmd_set = PSDISPLAY_CMD_SET_0) :
    ∃ s', runTransfers s [PSDISPLAYCMD0_DRAW_SCENE, PSDISPLAYSCENE_BLACK] = some s' ∧
      s'.state = PSDISPLAYSTATE_ACCEPTING_CMD ∧ s'.redraw = true ∧
      s'.intn_level = false ∧
      (∀ idx : Int, 0 ≤ idx → idx < (SNOWY_FB_SIZE : Nat) →
        s'.framebuffer idx = SNOWY_COLOR_BLACK) := by
  simp +decide [runTransfers, ps_display_transfer, qemu_set_intn, hcs, hst, hset,
    ps_display_execute_current_cmd_set0, ps_display_reset_state,
    ps_display_fill_framebuffer]
  intro idx h1 h2
  simp [h1, h2]

/-- Witness for C4 at a concrete state. -/
theorem legacy_draw_scene_black_fills_framebuffer_witness :
    (mkCmdState PSDISPLAY_CMD_SET_0).state = PSDISPLAYSTATE_ACCEPTING_CMD ∧
    ∃ s', runTransfers (mkCmdState PSDISPLAY_CMD_SET_0)
        [PSDISPLAYCMD0_DRAW_SCENE, PSDISPLAYSCENE_BLACK] = some s' ∧
      s'.state = PSDISPLAYSTATE_ACCEPTING_CMD ∧ s'.redraw = true ∧
      s'.intn_level = false ∧
      (∀ idx : Int, 0 ≤ idx → idx < (SNOWY_FB_SIZE : Nat) →
        s'.framebuffer idx = SNOWY_COLOR_BLACK) :=
  ⟨rfl, legacy_draw_scene_black_fills_framebuffer (mkCmdState PSDISPLAY_CMD_SET_0) rfl rfl rfl⟩

/-! ## C8: what resets the clock counter -/

/-- A state with chip select high and five rising clock edges counted. -/
def csHighCounting5 : PSDisplay :=
  { ps_display_init_state with
      cs_value := true
      sclk_count_with_cs_high := 5 }

/-- Counterexample for C8: lowering (asserting) chip select does NOT reset
`sclk_count_with_cs_high` — after `ps_display_set_cs(s, false)` from a state
that had counted 5 edges, the counter is still nonzero, contradicting the
claim that it is "reset to zero whenever chip-select is lowered". -/
theorem sclk_count_survives_cs_low :
    (ps_display_set_cs csHighCounting5 false).sclk_count_with_cs_high ≠ 0 := by
  decide

/-- C8 (amended): `ps_display_set_cs` never modifies the clock counter (in
either chip-select direction); the counter is reset to zero by an assertion
of the (active-low) reset pin. -/
theorem sclk_count_reset_only_by_reset_pin :
    (∀ (s : PSDisplay) (v : Bool),
        (ps_display_set_cs s v).sclk_count_with_cs_high =
          s.sclk_count_with_cs_high) ∧
    (∀ s : PSDisplay,
        (ps_display_set_reset_pin_cb s 0).sclk_count_with_cs_high = 0) := by
  constructor
  · intro s v
    simp only [ps_display_set_cs, ps_display_reset_state, qemu_set_intn]
    split <;> rfl
  · intro s
    rfl

/-! ## C9: dispatch with an unknown command set aborts -/

/-- C9: A command byte received in `ACCEPTING_CMD` with chip select asserted
while the command set is still `UNKNOWN` makes `ps_display_transfer` hit the
C `abort()` (modeled as `none`); with any other command-set value a transfer
never aborts, in any state. -/
theorem unknown_command_set_aborts :
    (∀ (s : PSDisplay) (data : Nat),
        s.cs_value = false → s.state = PSDISPLAYSTATE_ACCEPTING_CMD →
        s.cmd_set = PSDISPLAY_CMD_SET_UNKNOWN →
        ps_display_transfer s data = none) ∧
    (∀ (s : PSDisplay) (data : Nat),
        s.cmd_set ≠ PSDISPLAY_CMD_SET_UNKNOWN →
        (ps_display_transfer s data).isSome = true) := by
  constructor
  · intro s data hcs hst hset
    simp [ps_display_transfer, hcs, hst, qemu_set_intn, hset]
  · intro s data hset
    unfold ps_display_transfer
    split
    · rfl
    · split <;> dsimp only <;> (repeat' split) <;>
        first
          | rfl
          | (cases hc : s.cmd_set <;> simp_all [qemu_set_intn])

/-- Witness for C9: the concrete zero-initialized command-accepting state
aborts on a command byte, and the same state under command set 0 does not. -/
theorem unknown_command_set_aborts_witness :
    ps_display_transfer (mkCmdState PSDISPLAY_CMD_SET_UNKNOWN) 4 = none ∧
    (ps_display_transfer (mkCmdState PSDISPLAY_CMD_SET_0) 4).isSome = true :=
  ⟨unknown_command_set_aborts.1 (mkCmdState PSDISPLAY_CMD_SET_UNKNOWN) 4 rfl rfl rfl,
   unknown_command_set_aborts.2 (mkCmdState PSDISPLAY_CMD_SET_0) 4 (by decide)⟩

/-! ## C5: command-set detection -/

/-- Matching a concatenation splits into matching the two pieces. -/
theorem matchesAt_append (h : Nat → Nat) (l1 l2 : List Nat) :
    ∀ i, matchesAt h i (l1 ++ l2) =
      (matchesAt h i l1 && matchesAt h (i + l1.length) l2) := by
  induction l1 with
  | nil => intro i; simp [matchesAt]
  | cons c cs ih =>
    intro i
    simp [matchesAt, ih (i + 1), Bool.and_assoc]
    ring_nf

/-- Pointwise characterization of `matchesAt`. -/
theorem matchesAt_eq_true_iff (h : Nat → Nat) (l : List Nat) :
    ∀ i, (matchesAt h i l = true ↔ ∀ j, j < l.length → h (i + j) = l.getD j 0) := by
  induction l with
  | nil => intro i; simp [matchesAt]
  | cons c cs ih =>
    intro i
    simp only [matchesAt, Bool.and_eq_true, beq_iff_eq, ih (i + 1), List.length_cons]
    constructor
    · rintro ⟨h0, hrest⟩ j hj
      cases j with
      | zero => simpa using h0
      | succ j' =>
        have := hrest j' (by omega)
        simpa [Nat.add_comm, Nat.add_assoc, Nat.add_left_comm] using this
    · intro hall
      refine ⟨by simpa using hall 0 (by omega), fun j hj => ?_⟩
      have := hall (j + 1) (by omega)
      simpa [Nat.add_comm, Nat.add_assoc, Nat.add_left_comm] using this

/-- A match of the full command-set-0 date signature is in particular a
match of its `"Date:"` prefix. -/
theorem marker_of_sig0 (h : Nat → Nat) (i : Nat)
    (hm : matchesAt h i dateCmdSet0 = true) : matchesAt h i dateMarker = true := by
  have hsplit : dateCmdSet0 = dateMarker ++ bytesOfStr " Dec 10 2014 08:30" := by decide
  rw [hsplit, matchesAt_append] at hm
  exact (Bool.and_eq_true _ _ |>.mp hm).1

/-- A match of the full command-set-1 date signature is in particular a
match of its `"Date:"` prefix. -/
theorem marker_of_sig1 (h : Nat → Nat) (i : Nat)
    (hm : matchesAt h i dateCmdSet1 = true) : matchesAt h i dateMarker = true := by
  have hsplit : dateCmdSet1 = dateMarker ++ bytesOfStr " Sep 12 2014 16:56:21" := by decide
  rw [hsplit, matchesAt_append] at hm
  exact (Bool.and_eq_true _ _ |>.mp hm).1

/-- The two date signatures cannot both match at one position (they differ
at offset 6: `D` versus `S`). -/
theorem sig0_sig1_exclusive (h : Nat → Nat) (i : Nat)
    (h0 : matchesAt h i dateCmdSet0 = true) :
    matchesAt h i dateCmdSet1 = false := by
  by_contra hne
  have h1 : matchesAt h i dateCmdSet1 = true := by
    cases hb : matchesAt h i dateCmdSet1
    · exact absurd hb hne
    · rfl
  have e0 := (matchesAt_eq_true_iff h dateCmdSet0 i).mp h0 6 (by decide)
  have e1 := (matchesAt_eq_true_iff h dateCmdSet1 i).mp h1 6 (by decide)
  rw [e0] at e1
  revert e1
  decide

/-- One unfolding step of the detection scan. -/
theorem detLoop_succ (h : Nat → Nat) (off i fuel : Nat) :
    detLoop h off i (fuel + 1) =
      (if i < off then
        if matchesAt h i dateMarker then
          if matchesAt h i dateCmdSet0 then PSDISPLAY_CMD_SET_0
          else if matchesAt h i dateCmdSet1 then PSDISPLAY_CMD_SET_1
          else PSDISPLAY_CMD_SET_1
        else detLoop h off (i + strlenFrom h i 256 + 1) fuel
      else PSDISPLAY_CMD_SET_1) := rfl

/-- If no scanned position can match `"Date:"`, the scan returns the
default command set. -/
theorem detLoop_no_marker (h : Nat → Nat) (off : Nat)
    (hnm : ∀ i, i < off → 2 ≤ i → matchesAt h i dateMarker = false) :
    ∀ fuel i, 2 ≤ i → detLoop h off i fuel = PSDISPLAY_CMD_SET_1 := by
  intro fuel
  induction fuel with
  | zero => intro i _; rfl
  | succ fuel ih =>
    intro i hi
    rw [detLoop_succ]
    by_cases hlt : i < off
    · rw [if_pos hlt, hnm i hlt hi]
      simp only [Bool.false_eq_true, if_false]
      exact ih (i + strlenFrom h i 256 + 1) (by omega)
    · rw [if_neg hlt]

/-- C5: (i) a scan position whose bytes are exactly the command-set-0 date
signature makes the detection scan return `PSDISPLAY_CMD_SET_0`, (ii) one
with the command-set-1 signature returns `PSDISPLAY_CMD_SET_1`, (iii) a
position carrying `"Date:"` but matching neither known signature falls back
to the default `PSDISPLAY_CMD_SET_1`, and (iv) a captured header in which no
scanned position can match `"Date:"` makes the full
`ps_display_determine_command_set` return the default
`PSDISPLAY_CMD_SET_1`. -/
theorem detector_returns_matching_dialect :
    (∀ (h : Nat → Nat) (off i : Nat), i < off →
        matchesAt h i dateCmdSet0 = true →
        detLoop h off i 256 = PSDISPLAY_CMD_SET_0) ∧
    (∀ (h : Nat → Nat) (off i : Nat), i < off →
        matchesAt h i dateCmdSet1 = true →
        detLoop h off i 256 = PSDISPLAY_CMD_SET_1) ∧
    (∀ (h : Nat → Nat) (off i : Nat), i < off →
        matchesAt h i dateMarker = true →
        matchesAt h i dateCmdSet0 = false →
        matchesAt h i dateCmdSet1 = false →
        detLoop h off i 256 = PSDISPLAY_CMD_SET_1) ∧
    (∀ s : PSDisplay,
        (∀ i, i < (ps_display_determine_command_set s).prog_byte_offset → 2 ≤ i →
          matchesAt (ps_display_determine_command_set s).prog_header i dateMarker = false) →
        (ps_display_determine_command_set s).cmd_set = PSDISPLAY_CMD_SET_1) := by
  refine ⟨?_, ?_, ?_, ?_⟩
  · intro h off i hlt hsig
    rw [show (256 : Nat) = 255 + 1 from rfl, detLoop_succ, if_pos hlt,
      marker_of_sig0 h i hsig, hsig]
    rfl
  · intro h off i hlt hsig
    rw [show (256 : Nat) = 255 + 1 from rfl, detLoop_succ, if_pos hlt,
      marker_of_sig1 h i hsig]
    cases h0 : matchesAt h i dateCmdSet0
    · rw [hsig]; rfl
    · exact absurd hsig (by rw [sig0_sig1_exclusive h i h0]; decide)
  · intro h off i hlt hmk h0 h1
    rw [show (256 : Nat) = 255 + 1 from rfl, detLoop_succ, if_pos hlt, hmk, h0, h1]
    rfl
  · intro s hnm
    exact detLoop_no_marker _ _ hnm 256 2 (by omega)

/-- Header byte lookup for a concrete captured header. -/
def hdrBytes (l : List Nat) : Nat → Nat := fun i => l.getD i 0

/-- A device state that has captured the given programming header. -/
def progHdrState (l : List Nat) : PSDisplay :=
  { ps_display_init_state with
      prog_header := hdrBytes l
      prog_byte_offset := l.length }

/-- Concrete header carrying the command-set-0 signature. -/
def hdrSig0 : List Nat := [0xFF, 0x00] ++ dateCmdSet0 ++ [0x00]

/-- Concrete header carrying the command-set-1 signature. -/
def hdrSig1 : List Nat := [0xFF, 0x00] ++ dateCmdSet1 ++ [0x00]

/-- Concrete header carrying a `"Date:"` marker with an unknown date. -/
def hdrUnknownDate : List Nat := [0xFF, 0x00] ++ bytesOfStr "Date: Jan 01 1999" ++ [0x00]

/-- Concrete header with no `"Date:"` marker at all. -/
def hdrNoMarker : List Nat :=
  [0xFF, 0x00] ++ bytesOfStr "Lattice" ++ [0x00] ++ bytesOfStr "Part: iCE40LP1K-CM36" ++ [0x00]

/-- Witness for C5 on four concrete headers. -/
theorem detector_returns_matching_dialect_witness :
    detLoop (hdrBytes hdrSig0) hdrSig0.length 2 256 = PSDISPLAY_CMD_SET_0 ∧
    detLoop (hdrBytes hdrSig1) hdrSig1.length 2 256 = PSDISPLAY_CMD_SET_1 ∧
    detLoop (hdrBytes hdrUnknownDate) hdrUnknownDate.length 2 256 = PSDISPLAY_CMD_SET_1 ∧
    (ps_display_determine_command_set (progHdrState hdrNoMarker)).cmd_set = PSDISPLAY_CMD_SET_1 :=
  ⟨detector_returns_matching_dialect.1 _ _ 2 (by decide) (by decide),
   detector_returns_matching_dialect.2.1 _ _ 2 (by decide) (by decide),
   detector_returns_matching_dialect.2.2.1 _ _ 2 (by decide) (by decide) (by decide) (by decide),
   detector_returns_matching_dialect.2.2.2 _ (by decide)⟩

/-! ## Blit lemmas (used by C6 and for framebuffer bounds) -/

/-- The framebuffer after one blit iteration: the cell of pixel `i` holds
the decoded bit, every other cell is unchanged. -/
theorem drawBitmapStep_framebuffer (bits : Nat → Nat) (xo yo w : Nat)
    (t : PSDisplay) (i : Nat) (idx : Int) :
    (drawBitmapStep bits xo yo w t i).framebuffer idx =
      if idx = drawBitmapTarget xo yo w i then
        (if bits (i / 8) &&& (1 <<< (i % 8)) ≠ 0 then 0xC0 else 0x00)
      else t.framebuffer idx := by
  by_cases hb : bits (i / 8) &&& (1 <<< (i % 8)) ≠ 0 <;>
    simp [drawBitmapStep, ps_display_set_pixel, drawBitmapTarget, hb]

/-- A blit iteration changes only the framebuffer. -/
theorem drawBitmapStep_only_framebuffer (bits : Nat → Nat) (xo yo w : Nat)
    (t : PSDisplay) (i : Nat) :
    (drawBitmapStep bits xo yo w t i) =
      { t with framebuffer := (drawBitmapStep bits xo yo w t i).framebuffer } := by
  by_cases hb : bits (i / 8) &&& (1 <<< (i % 8)) ≠ 0 <;>
    simp [drawBitmapStep, ps_display_set_pixel, hb]

/-- The blit loop changes only the framebuffer. -/
theorem drawFold_only_framebuffer (bits : Nat → Nat) (xo yo w : Nat) :
    ∀ (l : List Nat) (t : PSDisplay),
      l.foldl (drawBitmapStep bits xo yo w) t =
        { t with framebuffer := (l.foldl (drawBitmapStep bits xo yo w) t).framebuffer } := by
  intro l
  induction l with
  | nil => intro t; rfl
  | cons a as ih =>
    intro t
    simp only [List.foldl_cons]
    rw [ih (drawBitmapStep bits xo yo w t a)]
    rw [drawBitmapStep_only_framebuffer]

/-- A cell that is the target of no pixel of the loop is left unchanged. -/
theorem drawFold_fb_untouched (bits : Nat → Nat) (xo yo w : Nat) :
    ∀ (l : List Nat) (t : PSDisplay) (idx : Int),
      (∀ i ∈ l, idx ≠ drawBitmapTarget xo yo w i) →
      ((l.foldl (drawBitmapStep bits xo yo w) t).framebuffer idx) =
        t.framebuffer idx := by
  intro l
  induction l with
  | nil => intro t idx _; rfl
  | cons a as ih =>
    intro t idx hne
    simp only [List.foldl_cons]
    rw [ih _ idx (fun i hi => hne i (List.mem_cons_of_mem a hi)),
      drawBitmapStep_framebuffer,
      if_neg (hne a (List.mem_cons_self a as))]

/-- With pixel targets pairwise distinct, the final framebuffer holds the
decoded bit of each pixel at its own cell. -/
theorem drawFold_fb_value (bits : Nat → Nat) (xo yo w : Nat) :
    ∀ (l : List Nat) (t : PSDisplay) (i : Nat),
      i ∈ l →
      (∀ j ∈ l, drawBitmapTarget xo yo w j = drawBitmapTarget xo yo w i → j = i) →
      ((l.foldl (drawBitmapStep bits xo yo w) t).framebuffer
          (drawBitmapTarget xo yo w i)) =
        (if bits (i / 8) &&& (1 <<< (i % 8)) ≠ 0 then 0xC0 else 0x00) := by
  intro l
  induction l with
  | nil => intro t i hmem; exact absurd hmem (List.not_mem_nil i)
  | cons a as ih =>
    intro t i hmem hinj
    simp only [List.foldl_cons]
    by_cases hmem' : i ∈ as
    · exact ih _ i hmem' (fun j hj => hinj j (List.mem_cons_of_mem a hj))
    · have hia : i = a := by
        rcases List.mem_cons.mp hmem with h | h
        · exact h
        · exact absurd h hmem'
      subst hia
      rw [drawFold_fb_untouched bits xo yo w as _ _ ?_,
        drawBitmapStep_framebuffer, if_pos rfl]
      intro j hj heq
      exact hmem' (by rwa [hinj j (List.mem_cons_of_mem i hj) heq.symm] at hj)

/-- The C bit test `bits[i / 8] & (1 << (i % 8))` is nonzero exactly when
bit `i % 8`, counted from the LEAST significant bit, is set. -/
theorem and_one_shift_ne_zero (a k : Nat) :
    (a &&& (1 <<< k) ≠ 0) ↔ a.testBit k = true := by
  rw [Nat.shiftLeft_eq, one_mul, Nat.and_two_pow]
  rcases hb : a.testBit k <;> simp [hb]

/-- Every cell the splash-screen blit (`x_offset 8, y_offset 68, 128x32`)
writes lies inside the framebuffer array. -/
theorem splash_target_bounds (i : Nat) (hi : i < 4096) :
    0 ≤ drawBitmapTarget 8 68 128 i ∧ drawBitmapTarget 8 68 128 i < 25456 := by
  unfold drawBitmapTarget
  constructor
  · exact Int.ofNat_nonneg _
  · have h1 : i / 128 < 32 := by omega
    have h2 : i % 128 < 128 := by omega
    have : ((68 + i / 128) % 256) * 148 + ((8 + i % 128) % 256) < 25456 := by
      omega
    exact_mod_cast this

/-! ## C6: bit order of the bitmap blit -/

/-- The blit as claim C6 and the spec describe it — written from the words
of the spec, NOT from the code, for comparison: identical to
`ps_display_draw_bitmap` except that each byte is unpacked MSB-first
(bit `7 - i % 8`). -/
def draw_bitmap_msb_first_spec (s : PSDisplay) (bits : Nat → Nat)
    (x_offset y_offset width height : Nat) : PSDisplay :=
  (List.range (width * height)).foldl
    (fun t i =>
      let x := (x_offset + i % width) % 256
      let y := (y_offset + i / width) % 256
      if bits (i / 8) &&& (1 <<< (7 - i % 8)) ≠ 0 then
        ps_display_set_pixel t x y 0xC0
      else
        ps_display_set_pixel t x y 0x00)
    s

/-- Counterexample for C6: for the one-byte bitmap `0x01` (only the LEAST
significant bit set), blitting one 8x1 row at offset (0,0) the code writes
red to pixel 0, while the claimed MSB-first unpacking would write black
there — the code disagrees with the claim at this input. -/
theorem draw_bitmap_not_msb_first :
    (ps_display_draw_bitmap ps_display_init_state (fun _ => 0x01) 0 0 8 1).framebuffer 0 = 0xC0 ∧
    (draw_bitmap_msb_first_spec ps_display_init_state (fun _ => 0x01) 0 0 8 1).framebuffer 0 = 0x00 ∧
    ((ps_display_draw_bitmap ps_display_init_state (fun _ => 0x01) 0 0 8 1).framebuffer 0 ≠
      (draw_bitmap_msb_first_spec ps_display_init_state (fun _ => 0x01) 0 0 8 1).framebuffer 0) := by
  refine ⟨by decide, by decide, by decide⟩

/-- C6 (amended): the blit unpacks the source bitmap one bit per pixel
LSB-first within each byte (bit `i % 8` of byte `i / 8`, counted from the
least significant bit), row-major, writing the red encoding for a set bit
and the black encoding for a clear bit at row `y_offset + i / width`,
column `x_offset + i % width` — stated for any blit rectangle that fits the
visible framebuffer, as the splash blit (offset (8,68), 128x32) does. -/
theorem draw_bitmap_unpacks_lsb_first (s : PSDisplay) (bits : Nat → Nat)
    (x_offset y_offset width height i : Nat)
    (hx : x_offset + width ≤ SNOWY_NUM_COLS)
    (hy : y_offset + height ≤ SNOWY_NUM_ROWS)
    (hi : i < width * height) :
    (ps_display_draw_bitmap s bits x_offset y_offset width height).framebuffer
        (((y_offset + i / width) * SNOWY_BYTES_PER_ROW + (x_offset + i % width) : Nat)) =
      if (bits (i / 8)).testBit (i % 8) then SNOWY_COLOR_RED else SNOWY_COLOR_BLACK := by
  have hcols : SNOWY_NUM_COLS = 148 := rfl
  have hrows : SNOWY_NUM_ROWS = 172 := rfl
  have hw : 0 < width := by
    rcases Nat.eq_zero_or_pos width with h | h
    · rw [h, Nat.zero_mul] at hi; omega
    · exact h
  have hdiv : ∀ j, j < width * height → j / width < height := fun j hj =>
    (Nat.div_lt_iff_lt_mul hw).mpr (by rwa [Nat.mul_comm width height] at hj)
  have htgt : ∀ j, j < width * height →
      drawBitmapTarget x_offset y_offset width j =
        (((y_offset + j / width) * SNOWY_BYTES_PER_ROW + (x_offset + j % width) : Nat)) := by
    intro j hj
    have hd := hdiv j hj
    have hm := Nat.mod_lt j hw
    have h1 : y_offset + j / width < 256 := by omega
    have h2 : x_offset + j % width < 256 := by omega
    unfold drawBitmapTarget
    rw [Nat.mod_eq_of_lt h1, Nat.mod_eq_of_lt h2]
  have hinj : ∀ j, j < width * height →
      drawBitmapTarget x_offset y_offset width j =
        drawBitmapTarget x_offset y_offset width i → j = i := by
    intro j hj heq
    rw [htgt j hj, htgt i hi] at heq
    have heqn : (y_offset + j / width) * 148 + (x_offset + j % width) =
        (y_offset + i / width) * 148 + (x_offset + i % width) := by
      exact_mod_cast heq
    have hrj : j % width < width := Nat.mod_lt j hw
    have hri : i % width < width := Nat.mod_lt i hw
    have hq : j / width = i / width := by omega
    have hr : j % width = i % width := by omega
    rw [← Nat.div_add_mod j width, ← Nat.div_add_mod i width, hq, hr]
  rw [ps_display_draw_bitmap, ← htgt i hi,
    drawFold_fb_value bits x_offset y_offset width _ s i
      (List.mem_range.mpr hi) (fun j hj => hinj j (List.mem_range.mp hj))]
  by_cases hb : (bits (i / 8)).testBit (i % 8)
  · rw [if_pos ((and_one_shift_ne_zero _ _).mpr hb), if_pos hb]
  · rw [if_neg (fun hc => hb ((and_one_shift_ne_zero _ _).mp hc)),
      if_neg hb]

/-- Witness for C6 (amended) at the one-byte bitmap `0x01`, pixel 0. -/
theorem draw_bitmap_unpacks_lsb_first_witness :
    (ps_display_draw_bitmap ps_display_init_state (fun _ => 0x01) 0 0 8 1).framebuffer
        (((0 + 0 / 8) * SNOWY_BYTES_PER_ROW + (0 + 0 % 8) : Nat)) =
      if ((fun _ => (0x01 : Nat)) (0 / 8)).testBit (0 % 8) then SNOWY_COLOR_RED
      else SNOWY_COLOR_BLACK :=
  draw_bitmap_unpacks_lsb_first ps_display_init_state (fun _ => 0x01) 0 0 8 1 0
    (by decide) (by decide) (by decide)

/-! ## C1: programming-complete and dialect detection happen exactly once -/

/-- Unfolding: one more clock pulse in front of a pulse train. -/
theorem sclkPulses_succ (n : Nat) : sclkPulses (n + 1) = 1 :: 0 :: sclkPulses n := by
  simp [sclkPulses, List.replicate_succ]

/-- Pulse trains concatenate. -/
theorem sclkPulses_add (a b : Nat) :
    sclkPulses (a + b) = sclkPulses a ++ sclkPulses b := by
  unfold sclkPulses
  rw [List.replicate_add, List.flatten_append]

/-- Clock-level runs concatenate. -/
theorem runSclk_append (l1 l2 : List Nat) :
    ∀ s : PSDisplay, runSclk s (l1 ++ l2) = runSclk (runSclk s l1) l2 := by
  induction l1 with
  | nil => intro s; rfl
  | cons a as ih => intro s; simp [runSclk, ih]

/-- A rising clock edge while CS is high and the count stays at most 50:
only the counter and the stored clock level change. -/
theorem sclk_rise_below_threshold (s : PSDisplay) (k : Nat)
    (hcs : s.cs_value = true) (hsv : s.sclk_value = false)
    (hk : s.sclk_count_with_cs_high = k) (hk50 : k + 1 ≤ 50) :
    ps_display_set_sclk_pin_cb s 1 =
      { s with sclk_count_with_cs_high := k + 1, sclk_value := true } := by
  have hmod : (k + 1) % 2 ^ 32 = k + 1 := Nat.mod_eq_of_lt (by norm_num; omega)
  unfold ps_display_set_sclk_pin_cb
  simp only [hcs, hsv, hk, hmod]
  norm_num
  rw [if_neg (by omega : ¬ 50 < k + 1)]
  simp [hcs, hk]

/-- A falling clock edge while CS is high below the threshold only stores
the new clock level. -/
theorem sclk_fall_below_threshold (s : PSDisplay) (k : Nat)
    (hcs : s.cs_value = true)
    (hk : s.sclk_count_with_cs_high = k) (hk50 : k ≤ 50) :
    ps_display_set_sclk_pin_cb s 0 =
      { s with sclk_value := false } := by
  unfold ps_display_set_sclk_pin_cb
  simp only [hcs]
  norm_num
  rw [if_neg (show ¬ 50 < s.sclk_count_with_cs_high by omega)]
  simp [hcs]

/-- Once the done line is already high and the controller has left
programming mode, a rising clock edge only counts and stores the level:
repeated `qemu_set_irq(done, true)` calls cause no further rising
transition, and no further detection. -/
theorem sclk_rise_after_done (s : PSDisplay)
    (hcs : s.cs_value = true) (hst : s.state = PSDISPLAYSTATE_ACCEPTING_CMD)
    (hdl : s.done_level = true) (hsv : s.sclk_value = false) :
    ps_display_set_sclk_pin_cb s 1 =
      { s with
          sclk_count_with_cs_high := (s.sclk_count_with_cs_high + 1) % 2 ^ 32
          sclk_value := true } := by
  unfold ps_display_set_sclk_pin_cb
  simp only [hcs, hsv]
  norm_num
  by_cases hgt : 50 < (s.sclk_count_with_cs_high + 1) % 2 ^ 32
  · rw [if_pos (by norm_num at hgt ⊢; omega)]
    simp [qemu_set_done, hst, hdl, hcs]
  · rw [if_neg (by norm_num at hgt ⊢; omega)]
    simp [hcs]

/-- A falling clock edge after done is high and programming is over only
stores the level. -/
theorem sclk_fall_after_done (s : PSDisplay)
    (hcs : s.cs_value = true) (hst : s.state = PSDISPLAYSTATE_ACCEPTING_CMD)
    (hdl : s.done_level = true) :
    ps_display_set_sclk_pin_cb s 0 = { s with sclk_value := false } := by
  unfold ps_display_set_sclk_pin_cb
  simp only [hcs]
  norm_num
  by_cases hgt : 50 < s.sclk_count_with_cs_high
  · rw [if_pos hgt]
    simp [qemu_set_done, hst, hdl, hcs]
  · rw [if_neg hgt]
    simp [hcs]

/-- The 51st rising clock edge: the counter passes the threshold, the
programming-complete line rises (one transition), the controller leaves
programming mode for `ACCEPTING_CMD`, and the detector runs once. -/
theorem sclk_rise_trigger (s : PSDisplay)
    (hcs : s.cs_value = true) (hsv : s.sclk_value = false)
    (hst : s.state = PSDISPLAYSTATE_PROGRAMMING)
    (hk : s.sclk_count_with_cs_high = 50)
    (hdl : s.done_level = false) :
    (ps_display_set_sclk_pin_cb s 1).cs_value = true ∧
    (ps_display_set_sclk_pin_cb s 1).state = PSDISPLAYSTATE_ACCEPTING_CMD ∧
    (ps_display_set_sclk_pin_cb s 1).done_level = true ∧
    (ps_display_set_sclk_pin_cb s 1).sclk_value = true ∧
    (ps_display_set_sclk_pin_cb s 1).done_rise_count = s.done_rise_count + 1 ∧
    (ps_display_set_sclk_pin_cb s 1).detect_count = s.detect_count + 1 := by
  have hmod : (50 + 1) % 2 ^ 32 = 51 := by norm_num
  unfold ps_display_set_sclk_pin_cb
  simp only [hcs, hsv, hk, hmod]
  norm_num
  simp [qemu_set_done, hdl, hst, ps_display_reset_state, qemu_set_intn,
    ps_display_determine_command_set]

/-- The first 50 clock pulses while CS is high and programming continues:
only the counter advances; no done transition, no detection. -/
theorem runSclk_phaseA (m : Nat) : ∀ (s : PSDisplay) (k : Nat),
    s.cs_value = true → s.sclk_value = false →
    s.sclk_count_with_cs_high = k → k + m ≤ 50 →
    (runSclk s (sclkPulses m)).cs_value = true ∧
    (runSclk s (sclkPulses m)).sclk_value = false ∧
    (runSclk s (sclkPulses m)).sclk_count_with_cs_high = k + m ∧
    (runSclk s (sclkPulses m)).state = s.state ∧
    (runSclk s (sclkPulses m)).done_level = s.done_level ∧
    (runSclk s (sclkPulses m)).done_rise_count = s.done_rise_count ∧
    (runSclk s (sclkPulses m)).detect_count = s.detect_count := by
  induction m with
  | zero =>
    intro s k hcs hsv hk _
    exact ⟨hcs, hsv, by rw [Nat.add_zero]; exact hk, rfl, rfl, rfl, rfl⟩
  | succ m ih =>
    intro s k hcs hsv hk hbound
    have e1 := sclk_rise_below_threshold s k hcs hsv hk (by omega)
    have hcs1 : (ps_display_set_sclk_pin_cb s 1).cs_value = true := by
      rw [e1]; exact hcs
    have hk1 : (ps_display_set_sclk_pin_cb s 1).sclk_count_with_cs_high = k + 1 := by
      rw [e1]
    have e2 : ps_display_set_sclk_pin_cb (ps_display_set_sclk_pin_cb s 1) 0 =
        { ps_display_set_sclk_pin_cb s 1 with sclk_value := false } :=
      sclk_fall_below_threshold _ (k + 1) hcs1 hk1 (by omega)
    have hres := ih { ps_display_set_sclk_pin_cb s 1 with sclk_value := false }
      (k + 1) hcs1 rfl hk1 (by omega)
    rw [sclkPulses_succ]
    simp only [runSclk]
    rw [e2]
    refine ⟨hres.1, hres.2.1, ?_, ?_, ?_, ?_, ?_⟩
    · rw [hres.2.2.1]; omega
    · rw [hres.2.2.2.1]
      show (ps_display_set_sclk_pin_cb s 1).state = s.state
      rw [e1]
    · rw [hres.2.2.2.2.1]
      show (ps_display_set_sclk_pin_cb s 1).done_level = s.done_level
      rw [e1]
    · rw [hres.2.2.2.2.2.1]
      show (ps_display_set_sclk_pin_cb s 1).done_rise_count = s.done_rise_count
      rw [e1]
    · rw [hres.2.2.2.2.2.2]
      show (ps_display_set_sclk_pin_cb s 1).detect_count = s.detect_count
      rw [e1]

/-- After the trigger, any further clock pulses cause no additional done
rise and no additional detection, even if the counter wraps. -/
theorem runSclk_phaseB (m : Nat) : ∀ s : PSDisplay,
    s.cs_value = true → s.state = PSDISPLAYSTATE_ACCEPTING_CMD →
    s.done_level = true → s.sclk_value = false →
    (runSclk s (sclkPulses m)).done_rise_count = s.done_rise_count ∧
    (runSclk s (sclkPulses m)).detect_count = s.detect_count := by
  induction m with
  | zero => intro s _ _ _ _; exact ⟨rfl, rfl⟩
  | succ m ih =>
    intro s hcs hst hdl hsv
    have e1 := sclk_rise_after_done s hcs hst hdl hsv
    have hcs1 : (ps_display_set_sclk_pin_cb s 1).cs_value = true := by
      rw [e1]; exact hcs
    have hst1 : (ps_display_set_sclk_pin_cb s 1).state = PSDISPLAYSTATE_ACCEPTING_CMD := by
      rw [e1]; exact hst
    have hdl1 : (ps_display_set_sclk_pin_cb s 1).done_level = true := by
      rw [e1]; exact hdl
    have e2 := sclk_fall_after_done (ps_display_set_sclk_pin_cb s 1) hcs1 hst1 hdl1
    have hres := ih { ps_display_set_sclk_pin_cb s 1 with sclk_value := false }
      hcs1 hst1 hdl1 rfl
    rw [sclkPulses_succ]
    simp only [runSclk]
    rw [e2]
    refine ⟨?_, ?_⟩
    · rw [hres.1]
      show (ps_display_set_sclk_pin_cb s 1).done_rise_count = s.done_rise_count
      rw [e1]
    · rw [hres.2]
      show (ps_display_set_sclk_pin_cb s 1).detect_count = s.detect_count
      rw [e1]

set_option maxRecDepth 100000 in
/-- C1: From the `PROGRAMMING` state with chip select held high, the done
line low, and nothing counted yet, feeding any `n ≥ 52` rising clock edges
(as alternating high/low pulses) makes the programming-complete line rise
EXACTLY once and runs the command-set detector EXACTLY once; later edges of
the same run cause no further rise and no further detection.  (The trigger
in fact fires on the 51st rising edge, when the counter first exceeds 50.) -/
theorem programming_complete_and_detection_exactly_once (n : Nat) (s : PSDisplay)
    (hn : 52 ≤ n)
    (hstate : s.state = PSDISPLAYSTATE_PROGRAMMING)
    (hcs : s.cs_value = true)
    (hsv : s.sclk_value = false)
    (hdl : s.done_level = false)
    (hdr : s.done_rise_count = 0)
    (hdc : s.detect_count = 0)
    (hsc : s.sclk_count_with_cs_high = 0) :
    (runSclk s (sclkPulses n)).done_rise_count = 1 ∧
    (runSclk s (sclkPulses n)).detect_count = 1 := by
  obtain ⟨m, rfl⟩ : ∃ m, n = 50 + 1 + m := ⟨n - 51, by omega⟩
  rw [sclkPulses_add, runSclk_append, sclkPulses_add, runSclk_append]
  have hA := runSclk_phaseA 50 s 0 hcs hsv hsc (by omega)
  generalize hgen : runSclk s (sclkPulses 50) = s1 at hA ⊢
  have htr := sclk_rise_trigger s1 hA.1 hA.2.1
    (by rw [hA.2.2.2.1]; exact hstate) (by rw [hA.2.2.1]) (by rw [hA.2.2.2.2.1]; exact hdl)
  have e2 := sclk_fall_after_done
    (ps_display_set_sclk_pin_cb s1 1) htr.1 htr.2.1 htr.2.2.1
  have hB := runSclk_phaseB m
    { ps_display_set_sclk_pin_cb s1 1 with sclk_value := false }
    htr.1 htr.2.1 htr.2.2.1 rfl
  have hpul1 : sclkPulses 1 = [1, 0] := rfl
  rw [hpul1]
  simp only [runSclk]
  rw [e2]
  refine ⟨?_, ?_⟩
  · rw [hB.1]
    show (ps_display_set_sclk_pin_cb s1 1).done_rise_count = 1
    rw [htr.2.2.2.2.1, hA.2.2.2.2.2.1, hdr]
  · rw [hB.2]
    show (ps_display_set_sclk_pin_cb s1 1).detect_count = 1
    rw [htr.2.2.2.2.2, hA.2.2.2.2.2.2, hdc]

/-- Witness for C1: the freshly reset state with chip select high, fed
exactly 52 clock pulses. -/
theorem programming_complete_and_detection_exactly_once_witness :
    (runSclk { ps_display_init_state with cs_value := true }
        (sclkPulses 52)).done_rise_count = 1 ∧
    (runSclk { ps_display_init_state with cs_value := true }
        (sclkPulses 52)).detect_count = 1 :=
  programming_complete_and_detection_exactly_once 52
    { ps_display_init_state with cs_value := true }
    (by norm_num) rfl rfl rfl rfl rfl rfl rfl


/-! ## C2: Development-dialect column transfer -/

/-- `ACCEPTING_DATA`, bottom padding: a byte arriving with the row cursor
still at or above the visible area is discarded; only the cursor moves. -/
theorem transfer_data_bottom_padding (s : PSDisplay) (d : Nat)
    (hcs : s.cs_value = false) (hst : s.state = PSDISPLAYSTATE_ACCEPTING_DATA)
    (hge : (172 : Int) ≤ s.row_index) :
    ps_display_transfer s d = some { s with row_index := s.row_index - 1 } := by
  simp only [ps_display_transfer, hcs, hst, Bool.false_eq_true, if_false]
  rw [if_pos (by exact_mod_cast hge)]

/-- `ACCEPTING_DATA`, visible row: the byte is stored at
`framebuffer[row_index * SNOWY_BYTES_PER_ROW + col_index]` (truncated to a
byte) and the cursor moves down. -/
theorem transfer_data_visible (s : PSDisplay) (d : Nat)
    (hcs : s.cs_value = false) (hst : s.state = PSDISPLAYSTATE_ACCEPTING_DATA)
    (h0 : 0 ≤ s.row_index) (h172 : s.row_index < 172) :
    ps_display_transfer s d = some { s with
      framebuffer := fun idx =>
        if idx = s.row_index * (SNOWY_BYTES_PER_ROW : Nat) + s.col_index
        then d % 256 else s.framebuffer idx
      row_index := s.row_index - 1 } := by
  simp only [ps_display_transfer, hcs, hst, Bool.false_eq_true, if_false]
  rw [if_neg (by exact_mod_cast (by omega : ¬ (172 : Int) ≤ s.row_index)), if_pos h0]

/-- `ACCEPTING_DATA`, top padding: a byte with the cursor below the visible
area but above `-17` is discarded; only the cursor moves. -/
theorem transfer_data_top_padding (s : PSDisplay) (d : Nat)
    (hcs : s.cs_value = false) (hst : s.state = PSDISPLAYSTATE_ACCEPTING_DATA)
    (hneg : s.row_index < 0) (hgt : -17 < s.row_index) :
    ps_display_transfer s d = some { s with row_index := s.row_index - 1 } := by
  simp only [ps_display_transfer, hcs, hst, Bool.false_eq_true, if_false]
  rw [if_neg (by exact_mod_cast (by omega : ¬ (172 : Int) ≤ s.row_index)),
    if_neg (by omega), if_pos (by exact_mod_cast hgt)]

/-- `ACCEPTING_DATA`, line complete: when the cursor has passed the top
padding the final byte flips the decoder back to `ACCEPTING_LINENO` and
asserts the done line (low). -/
theorem transfer_data_complete (s : PSDisplay) (d : Nat)
    (hcs : s.cs_value = false) (hst : s.state = PSDISPLAYSTATE_ACCEPTING_DATA)
    (hend : s.row_index ≤ -17) :
    ps_display_transfer s d =
      some (qemu_set_intn { s with state := PSDISPLAYSTATE_ACCEPTING_LINENO } false) := by
  simp only [ps_display_transfer, hcs, hst, Bool.false_eq_true, if_false]
  rw [if_neg (by exact_mod_cast (by omega : ¬ (172 : Int) ≤ s.row_index)),
    if_neg (by omega), if_neg (by exact_mod_cast (by omega : ¬ (-17 : Int) < s.row_index))]

/-- The whole data phase of one column: starting with the row cursor at `j`
and exactly `j + 18` bytes to come, the run ends in `ACCEPTING_LINENO` with
done asserted; visible row `r ≤ j` holds byte number `j - r` of the data,
and no other framebuffer cell changes. -/
theorem data_phase : ∀ (ds : List Nat) (s : PSDisplay) (j : Int),
    s.cs_value = false → s.state = PSDISPLAYSTATE_ACCEPTING_DATA →
    s.row_index = j → -17 ≤ j → (ds.length : Int) = j + 18 →
    ∃ s', runTransfers s ds = some s' ∧
      s'.state = PSDISPLAYSTATE_ACCEPTING_LINENO ∧
      s'.intn_level = false ∧
      s'.col_index = s.col_index ∧
      (∀ r : Nat, r < 172 → (r : Int) ≤ j →
        s'.framebuffer ((r : Int) * 148 + s.col_index) = ds.getD (j - r).toNat 0 % 256) ∧
      (∀ idx : Int,
        (∀ r : Nat, r < 172 → (r : Int) ≤ j → idx ≠ (r : Int) * 148 + s.col_index) →
        s'.framebuffer idx = s.framebuffer idx) := by
  have h148 : ((SNOWY_BYTES_PER_ROW : Nat) : Int) = 148 := rfl
  intro ds
  induction ds with
  | nil =>
    intro s j _ _ _ hj hlen
    exfalso
    simp at hlen
    omega
  | cons d rest ih =>
    intro s j hcs hst hrow hj hlen
    simp only [List.length_cons] at hlen
    by_cases hend : j ≤ -17
    · -- last byte of the line: j = -17, rest is empty
      have hrest : rest = [] := by
        have : (rest.length : Int) = 0 := by omega
        exact List.eq_nil_of_length_eq_zero (by exact_mod_cast this)
      subst hrest
      refine ⟨qemu_set_intn { s with state := PSDISPLAYSTATE_ACCEPTING_LINENO } false,
        ?_, rfl, rfl, rfl, ?_, ?_⟩
      · show runTransfers s [d] = _
        simp only [runTransfers]
        rw [transfer_data_complete s d hcs hst (by omega)]
      · intro r _ hrj
        exfalso
        have : (0 : Int) ≤ (r : Int) := Int.ofNat_nonneg r
        omega
      · intro idx _
        rfl
    · push_neg at hend
      rcases Int.lt_or_le j 0 with hjneg | hjpos
      · -- top padding byte
        have ht := transfer_data_top_padding s d hcs hst (by omega) (by omega)
        obtain ⟨s', hrun, hs1, hs2, hs3, hs4, hs5⟩ :=
          ih { s with row_index := s.row_index - 1 } (j - 1) hcs hst
            (by simp [hrow]) (by omega) (by push_cast at hlen ⊢; omega)
        refine ⟨s', ?_, hs1, hs2, hs3, ?_, ?_⟩
        · show runTransfers s (d :: rest) = some s'
          simp only [runTransfers]
          rw [ht]
          exact hrun
        · intro r hr hrj
          exfalso
          have : (0 : Int) ≤ (r : Int) := Int.ofNat_nonneg r
          omega
        · intro idx hidx
          rw [hs5 idx ?_]
          intro r hr hrj
          exfalso
          have : (0 : Int) ≤ (r : Int) := Int.ofNat_nonneg r
          omega
      · rcases Int.lt_or_le j 172 with hjlt | hjge
        · -- visible byte: write row j
          have ht := transfer_data_visible s d hcs hst (by omega) (by omega)
          set s1 : PSDisplay := { s with
            framebuffer := fun idx =>
              if idx = s.row_index * (SNOWY_BYTES_PER_ROW : Nat) + s.col_index
              then d % 256 else s.framebuffer idx
            row_index := s.row_index - 1 } with hs1def
          obtain ⟨s', hrun, hp1, hp2, hp3, hp4, hp5⟩ :=
            ih s1 (j - 1) hcs hst (by simp [hs1def, hrow]) (by omega)
              (by push_cast at hlen ⊢; omega)
          refine ⟨s', ?_, hp1, hp2, hp3, ?_, ?_⟩
          · show runTransfers s (d :: rest) = some s'
            simp only [runTransfers]
            rw [ht]
            exact hrun
          · intro r hr hrj
            rcases Int.lt_or_le (r : Int) j with hrlt | hrge
            · have := hp4 r hr (by omega)
              rw [this]
              have harg : (j - 1 - (r : Int)).toNat + 1 = (j - (r : Int)).toNat := by omega
              rw [← harg]
              rfl
            · have hreq : (r : Int) = j := by omega
              have hnodup : ∀ r' : Nat, r' < 172 → (r' : Int) ≤ j - 1 →
                  (r : Int) * 148 + s.col_index ≠ (r' : Int) * 148 + s.col_index := by
                intro r' hr' hr'j heq
                omega
              rw [hp5 ((r : Int) * 148 + s.col_index) hnodup]
              rw [hs1def]
              simp only
              rw [if_pos (by rw [hrow, h148, hreq])]
              have h0 : (j - (r : Int)).toNat = 0 := by omega
              rw [h0]
              rfl
          · intro idx hidx
            rw [hp5 idx (fun r hr hrj => hidx r hr (by omega))]
            have hne : idx ≠ s.row_index * ((SNOWY_BYTES_PER_ROW : Nat) : Int) + s.col_index := by
              rw [hrow, h148]
              have h1 := hidx j.toNat (by omega) (by omega)
              rw [show ((j.toNat : Nat) : Int) = j from by omega] at h1
              exact h1
            rw [hs1def]
            simp only
            rw [if_neg hne]
        · -- bottom padding byte: j ≥ 172
          have ht := transfer_data_bottom_padding s d hcs hst (by omega)
          obtain ⟨s', hrun, hs1, hs2, hs3, hs4, hs5⟩ :=
            ih { s with row_index := s.row_index - 1 } (j - 1) hcs hst
              (by simp [hrow]) (by omega) (by push_cast at hlen ⊢; omega)
          refine ⟨s', ?_, hs1, hs2, hs3, ?_, ?_⟩
          · show runTransfers s (d :: rest) = some s'
            simp only [runTransfers]
            rw [ht]
            exact hrun
          · intro r hr hrj
            have := hs4 r hr (by omega)
            rw [this]
            have harg : (j - 1 - (r : Int)).toNat + 1 = (j - (r : Int)).toNat := by omega
            rw [← harg]
            rfl
          · intro idx hidx
            rw [hs5 idx ?_]
            intro r hr hrj
            exact hidx r hr (by omega)

/-- C2: Under the Development dialect (command set 1), from
`ACCEPTING_CMD` with chip select asserted, transferring the `FRAME_DATA`
opcode, then column index 0, then any 205 = 16 + 172 + 17 data bytes:
every visible row `r` of column 0 receives data byte `187 - r` (the 172
visible bytes are bytes 16..187, written bottom row 171 up to top row 0),
no other framebuffer cell changes (no padding byte is ever stored), the
decoder returns to `ACCEPTING_LINENO`, and done is signalled (intn low)
after the last byte. -/
theorem development_column_transfer (s : PSDisplay) (ds : List Nat)
    (hcs : s.cs_value = false) (hst : s.state = PSDISPLAYSTATE_ACCEPTING_CMD)
    (hset : s.cmd_set = PSDISPLAY_CMD_SET_1)
    (hlen : ds.length = 205) :
    ∃ s', runTransfers s (PSDISPLAYCMD1_FRAME_DATA :: 0 :: ds) = some s' ∧
      s'.state = PSDISPLAYSTATE_ACCEPTING_LINENO ∧
      s'.intn_level = false ∧
      (∀ r : Nat, r < 172 →
        s'.framebuffer ((r : Int) * 148) = ds.getD (187 - r) 0 % 256) ∧
      (∀ idx : Int, (∀ r : Nat, r < 172 → idx ≠ (r : Int) * 148) →
        s'.framebuffer idx = s.framebuffer idx) := by
  have ht1 : ps_display_transfer s PSDISPLAYCMD1_FRAME_DATA = some ({ s with cmd := 1, intn_level := true, state := PSDISPLAYSTATE_ACCEPTING_LINENO }) := by
    simp [ps_display_transfer, hcs, hst, hset, qemu_set_intn,
      ps_display_execute_current_cmd_set1]
  have ht2 : ps_display_transfer ({ s with cmd := 1, intn_level := true, state := PSDISPLAYSTATE_ACCEPTING_LINENO }) 0 = some ({ s with cmd := 1, col_index := 0, row_index := 187, state := PSDISPLAYSTATE_ACCEPTING_DATA, intn_level := true }) := by
    simp [ps_display_transfer, qemu_set_intn, hcs]
  obtain ⟨s', hrun, hp1, hp2, hp3, hp4, hp5⟩ :=
    data_phase ds ({ s with cmd := 1, col_index := 0, row_index := 187, state := PSDISPLAYSTATE_ACCEPTING_DATA, intn_level := true }) 187
      hcs rfl rfl (by norm_num) (by rw [hlen]; norm_num)
  have hcol0 : ({ s with cmd := 1, col_index := 0, row_index := 187, state := PSDISPLAYSTATE_ACCEPTING_DATA, intn_level := true } : PSDisplay).col_index = 0 := rfl
  simp only [hcol0, Int.add_zero] at hp4 hp5
  refine ⟨s', ?_, hp1, hp2, ?_, ?_⟩
  · show runTransfers s (PSDISPLAYCMD1_FRAME_DATA :: 0 :: ds) = some s'
    simp only [runTransfers]
    rw [ht1]
    dsimp only
    rw [ht2]
    dsimp only
    exact hrun
  · intro r hr
    have hres := hp4 r hr (by omega)
    rw [hres]
    have harg : ((187 : Int) - (r : Int)).toNat = 187 - r := by omega
    rw [harg]
  · intro idx hidx
    have hres := hp5 idx ?_
    · rw [hres]
    · intro r hr hrj
      exact hidx r hr

/-- Witness for C2: the concrete command-ready state and 205 data bytes of
value 9. -/
theorem development_column_transfer_witness :
    (List.replicate 205 9).length = 205 ∧
    ∃ s', runTransfers (mkCmdState PSDISPLAY_CMD_SET_1)
        (PSDISPLAYCMD1_FRAME_DATA :: 0 :: List.replicate 205 9) = some s' ∧
      s'.state = PSDISPLAYSTATE_ACCEPTING_LINENO ∧
      s'.intn_level = false ∧
      (∀ r : Nat, r < 172 →
        s'.framebuffer ((r : Int) * 148) =
          (List.replicate 205 9).getD (187 - r) 0 % 256) ∧
      (∀ idx : Int, (∀ r : Nat, r < 172 → idx ≠ (r : Int) * 148) →
        s'.framebuffer idx = (mkCmdState PSDISPLAY_CMD_SET_1).framebuffer idx) :=
  ⟨by rw [List.length_replicate], development_column_transfer
    (mkCmdState PSDISPLAY_CMD_SET_1) (List.replicate 205 9) rfl rfl rfl
    (by rw [List.length_replicate])⟩
